import Mathlib

/-!
Verification of the table-design synchronization engine (src/app.py).

The Python source is a Flask application over two SQLite databases:
the live database (DATABASE) holding the actual tables, and the design
database (DESIGN_DB) holding one persisted design record per table name
(table table_designs_simple, keyed by a UNIQUE table_name column).

Shallow embedding choices, justified against the source and against
documented SQLite behaviour:

- JSON field values are modelled by the inductive type Value; Python
  truthiness of an optional value (the source tests field.get(...) directly)
  is modelled by the function truthy.
- The live catalog is an association list from table name to a table
  schema, a list of columns.  A column stores exactly what PRAGMA
  table_info reports: declared type text, notnull flag, default value, and
  the pk column, which is 0 for a non-key column and the 1-based index of
  the column inside the primary key otherwise (documented SQLite
  behaviour); the builder in create_actual_table emits one composite
  PRIMARY KEY clause listing the primary-marked fields in field order, so
  the pk index of a primary field is its position in that list plus one.
- The engine accepts a CREATE TABLE statement built by create_actual_table
  exactly when the field list is non-empty and the rendered column names
  are pairwise distinct (an empty column list is a syntax error and a
  repeated column name is a duplicate-column error in SQLite); identifiers
  and type names supplied by the caller are assumed to be plain
  identifiers, since statement-injection through them is outside the model.
- In the source, the DROP TABLE that create_actual_table issues before a
  CREATE is executed by the sqlite3 module in autocommit mode (only DML
  statements open an implicit transaction), so the drop persists even when
  the subsequent CREATE fails; the embedding therefore removes the table
  from the catalog before testing whether the CREATE succeeds.
- ALTER TABLE ADD COLUMN is accepted by SQLite iff the new column name is
  fresh, the column is not declared UNIQUE (nor PRIMARY KEY, which the
  source never renders on this path), and a NOT NULL column carries a
  rendered non-null default; alterAddOk models exactly this.
- save_table_design and update_design_after_field_change catch every
  exception and only log it; a possible failure of the design-store write
  is modelled by the boolean parameter passed to create_table, and the
  source code result is unchanged by that failure.
- HTTP responses are modelled by ApiResult together with the error kind
  taxonomy of the specification, mapped from the literal response strings
  of the source.
-/

namespace SqlGen

/-- A JSON scalar value as carried by a field record of the source. -/
inductive Value where
  | vInt (n : Int)
  | vStr (s : String)
  | vBool (b : Bool)
  | vNull
deriving Repr, DecidableEq

/-- Python truthiness of an optional value, as used by the source in tests
such as the one guarding the DEFAULT clause: absent, 0, empty string,
False and None are falsy. -/
def truthy : Option Value → Bool
  | none => false
  | some (Value.vInt n) => n != 0
  | some (Value.vStr s) => s != ""
  | some (Value.vBool b) => b
  | some Value.vNull => false

/-- Rendering of a value into a statement string, following the Python
str conversion used by the f-string interpolation of the source. -/
def renderVal : Value → String
  | Value.vInt n => toString n
  | Value.vStr s => s
  | Value.vBool b => if b then "True" else "False"
  | Value.vNull => "None"

/-- One column specification of a design, mirroring the field dictionaries
of the source.  A missing key is modelled by none resp. the Python default
used by the corresponding .get call (nullable defaults to true). -/
structure Field where
  name : String
  type : String
  length : Option Nat
  nullable : Bool
  unique : Bool
  primary : Bool
  dflt : Option Value
deriving Repr, DecidableEq

/-- A named table design: the table dictionary of the source. -/
structure Design where
  name : String
  comment : Option String
  fields : List Field
deriving Repr, DecidableEq

/-- A live column as the catalog stores it and as PRAGMA table_info
reports it: pk is 0 for non-key columns and the 1-based index of the
column within the primary key otherwise. -/
structure Column where
  name : String
  type : String
  notnull : Bool
  dfltValue : Option Value
  pk : Nat
deriving Repr, DecidableEq

abbrev TableSchema := List Column
abbrev Catalog := List (String × TableSchema)
abbrev DesignStore := List (String × Design)

/-- Error kinds of the specification, mapped from the literal error
responses of the source. -/
inductive ApiError where
  | invalidDesign
  | invalidField
  | tableNotFound
  | designNotFound
  | fieldNotFound
  | duplicateField
  | schemaOperationFailed
  | designPersistenceFailed
deriving Repr, DecidableEq

/-- Outcome of an API operation. -/
inductive ApiResult (α : Type) where
  | ok (val : α)
  | err (e : ApiError)
deriving Repr, DecidableEq

/-- Lookup in an association list keyed by strings (SELECT by unique key). -/
def alookup {α : Type} (l : List (String × α)) (n : String) : Option α :=
  match l.find? (fun p => p.1 == n) with
  | some p => some p.2
  | none => none

/-- Remove a key (DROP TABLE resp. DELETE of the design row). -/
def aremove {α : Type} (l : List (String × α)) (n : String) : List (String × α) :=
  l.filter (fun p => p.1 != n)

/-- Upsert a key (INSERT OR REPLACE): the old row is removed and the new
row inserted. -/
def aset {α : Type} (l : List (String × α)) (n : String) (v : α) : List (String × α) :=
  aremove l n ++ [(n, v)]

/-- In-place update of a present key (UPDATE ... WHERE, resp. the effect of
ALTER TABLE on the catalog entry of an existing table). -/
def aupdate {α : Type} (l : List (String × α)) (n : String) (v : α) : List (String × α) :=
  l.map (fun p => if p.1 == n then (n, v) else p)

/-- Pairwise distinctness of rendered column names, the condition under
which SQLite accepts the column list of a CREATE TABLE statement. -/
def nodupNames : List String → Bool
  | [] => true
  | x :: xs => !(xs.contains x) && nodupNames xs

/-- Engine acceptance of the CREATE TABLE statement built by
create_actual_table: non-empty column list with pairwise distinct names. -/
def createOk (fs : List Field) : Bool :=
  !fs.isEmpty && nodupNames (fs.map (fun f => f.name))

/-- Names of the primary-marked fields in field order: the primary_keys
list the source accumulates while building the composite key clause. -/
def primNames (fs : List Field) : List String :=
  (fs.filter (fun f => f.primary)).map (fun f => f.name)

/-- Index of a string in a list (position of a field name inside the
composite primary key clause). -/
def idxOfStr (x : String) : List String → Nat
  | [] => 0
  | y :: ys => if y == x then 0 else idxOfStr x ys + 1

/-- Declared type text as PRAGMA table_info reports it: the type name
followed by the parenthesised length when the source rendered one (the
source guards the length clause by Python truthiness, so length 0 is
dropped). -/
def renderType (f : Field) : String :=
  f.type ++ (match f.length with
    | some l => if l != 0 then "(" ++ toString l ++ ")" else ""
    | none => "")

/-- Default value the live column ends up with: the source renders a
DEFAULT clause only when the supplied default is truthy, so falsy
defaults (0, empty string, False, None) leave the column without one. -/
def storedDefault (f : Field) : Option Value :=
  if truthy f.dflt then f.dflt else none

/-- The live column a field clause of the CREATE statement produces, given
the full primary-key name list of the design. -/
def fieldColumn (pks : List String) (f : Field) : Column :=
  { name := f.name
    type := renderType f
    notnull := !f.nullable
    dfltValue := storedDefault f
    pk := if f.primary then idxOfStr f.name pks + 1 else 0 }

/-- The table schema resulting from executing the CREATE statement built
from a field list. -/
def schemaOfFields (fs : List Field) : TableSchema :=
  fs.map (fieldColumn (primNames fs))

/-- Clause tail shared by the CREATE and ADD COLUMN renderings of the
source: length, NOT NULL, UNIQUE, DEFAULT, in that order, each guarded by
the same Python truthiness tests the source uses. -/
def fieldTail (f : Field) : String :=
  (match f.length with
    | some l => if l != 0 then "(" ++ toString l ++ ")" else ""
    | none => "")
  ++ (if !f.nullable then " NOT NULL" else "")
  ++ (if f.unique then " UNIQUE" else "")
  ++ (if truthy f.dflt then " DEFAULT " ++ renderVal (f.dflt.getD Value.vNull) else "")

/-- One field clause of the CREATE TABLE statement. -/
def fieldClause (f : Field) : String :=
  f.name ++ " " ++ f.type ++ fieldTail f

/-- The CREATE TABLE statement built by create_actual_table. -/
def buildCreateSql (d : Design) : String :=
  "CREATE TABLE " ++ d.name ++ " ("
  ++ String.intercalate ", "
      (d.fields.map fieldClause
        ++ (if (primNames d.fields).isEmpty then []
            else ["PRIMARY KEY (" ++ String.intercalate ", " (primNames d.fields) ++ ")"]))
  ++ ")"

/-- The ALTER TABLE ... ADD COLUMN statement built by add_field. -/
def buildAddColumnSql (t : String) (f : Field) : String :=
  "ALTER TABLE " ++ t ++ " ADD COLUMN " ++ f.name ++ " " ++ f.type ++ fieldTail f

/-- create_actual_table of the source: drop an existing table of that
name (the drop persists in autocommit mode even if the CREATE then
fails), then execute the built CREATE statement; returns the new catalog
and the success flag. -/
def create_actual_table (cat : Catalog) (d : Design) : Catalog × Bool :=
  let cat1 := aremove cat d.name
  if createOk d.fields then (cat1 ++ [(d.name, schemaOfFields d.fields)], true)
  else (cat1, false)

/-- Combined persistent state: the live catalog and the design store. -/
structure SysState where
  catalog : Catalog
  designs : DesignStore
deriving Repr, DecidableEq

/-- save_table_design of the source: INSERT OR REPLACE keyed by table
name.  The source catches every exception of this write and only logs it;
the boolean argument says whether the write succeeds, and a failing write
leaves the store untouched without signalling anything to the caller. -/
def save_table_design (ds : DesignStore) (d : Design) (saveOk : Bool) : DesignStore :=
  if saveOk then aset ds d.name d else ds

/-- create_table of the source (POST tables): the only validation before
any statement is executed is the Python truthiness test on the design
name; then create_actual_table runs, and only on its success is the
design saved (a failing save is swallowed). -/
def create_table (st : SysState) (d : Design) (saveOk : Bool) : SysState × ApiResult Unit :=
  if d.name == "" then (st, ApiResult.err ApiError.invalidDesign)
  else
    match create_actual_table st.catalog d with
    | (cat1, true) =>
        ({ catalog := cat1, designs := save_table_design st.designs d saveOk }, ApiResult.ok ())
    | (cat1, false) =>
        ({ catalog := cat1, designs := st.designs }, ApiResult.err ApiError.schemaOperationFailed)

/-- Column description as get_table_structure builds it from a PRAGMA
table_info row: nullable is the negated notnull flag, and primary_key is
the comparison of the pk index with 1 exactly as written in the source. -/
structure ColumnInfo where
  name : String
  type : String
  nullable : Bool
  default_value : Option Value
  primary_key : Bool
deriving Repr, DecidableEq

/-- Table structure snapshot returned by get_table_structure.  The
unique_constraints list is declared by the source and never filled. -/
structure TableInfo where
  name : String
  columns : List ColumnInfo
  primary_keys : List String
  unique_constraints : List String
deriving Repr, DecidableEq

/-- Conversion of one catalog column into the dictionary the source
builds for it. -/
def colInfo (c : Column) : ColumnInfo :=
  { name := c.name
    type := c.type
    nullable := !c.notnull
    default_value := c.dfltValue
    primary_key := c.pk == 1 }

/-- get_table_structure of the source.  PRAGMA table_info on an absent
table returns an empty row set without raising, so the function returns a
structure with an empty column list rather than failing; the None return
of the source only happens when a PRAGMA itself raises, which for the
plain identifiers of this model never occurs. -/
def get_table_structure (cat : Catalog) (n : String) : TableInfo :=
  let cols := (alookup cat n).getD []
  let infos := cols.map colInfo
  { name := n
    columns := infos
    primary_keys := (infos.filter (fun ci => ci.primary_key)).map (fun ci => ci.name)
    unique_constraints := [] }

/-- get_table_detail of the source (GET tables/name).  The source guards
its 404 branch by the Python truthiness of the structure dictionary; that
dictionary always carries four keys and is therefore truthy, so the
branch is unreachable and the endpoint always answers with the structure
and the optionally present design record. -/
def get_table_detail (st : SysState) (t : String) : ApiResult (TableInfo × Option Design) :=
  ApiResult.ok (get_table_structure st.catalog t, alookup st.designs t)

/-- Engine acceptance of the ADD COLUMN statement built by add_field:
the column name must be fresh, SQLite rejects an added UNIQUE column, and
an added NOT NULL column must carry a rendered non-null default.  The
primary flag is never rendered on this path by the source, so it does not
constrain acceptance. -/
def alterAddOk (sch : TableSchema) (f : Field) : Bool :=
  !((sch.map (fun c => c.name)).contains f.name)
  && !f.unique
  && (f.nullable || (truthy f.dflt && f.dflt != some Value.vNull))

/-- The live column an accepted ADD COLUMN statement appends. -/
def newColumn (f : Field) : Column :=
  { name := f.name
    type := renderType f
    notnull := !f.nullable
    dfltValue := storedDefault f
    pk := 0 }

/-- update_design_after_field_change of the source for the add operation:
if a design record exists for the table the new field is appended to its
field list and the row updated in place; if none exists nothing is
written. -/
def update_design_after_field_change (ds : DesignStore) (t : String) (f : Field) : DesignStore :=
  match alookup ds t with
  | none => ds
  | some d => aupdate ds t { d with fields := d.fields ++ [f] }

/-- add_field of the source (POST tables/name/fields): truthiness check on
the field name, live-table existence check, then the ADD COLUMN statement
runs against the live table, and on success the design record (when
present) gains the field. -/
def add_field (st : SysState) (t : String) (f : Field) : SysState × ApiResult Unit :=
  if f.name == "" then (st, ApiResult.err ApiError.invalidField)
  else
    match alookup st.catalog t with
    | none => (st, ApiResult.err ApiError.tableNotFound)
    | some sch =>
        if alterAddOk sch f then
          ({ catalog := aupdate st.catalog t (sch ++ [newColumn f])
             designs := update_design_after_field_change st.designs t f }, ApiResult.ok ())
        else (st, ApiResult.err ApiError.schemaOperationFailed)

/-- delete_field of the source (DELETE tables/name/fields/fieldName): the
stored design is loaded (404 when absent), the field list is filtered by
name with no check that the name was present, and the table is rebuilt by
create_actual_table from the filtered design.  The reduced design is
never written back to the design store. -/
def delete_field (st : SysState) (t : String) (fn : String) : SysState × ApiResult Unit :=
  match alookup st.designs t with
  | none => (st, ApiResult.err ApiError.designNotFound)
  | some d =>
      let d1 : Design := { d with fields := d.fields.filter (fun f => f.name != fn) }
      match create_actual_table st.catalog d1 with
      | (cat1, true) => ({ catalog := cat1, designs := st.designs }, ApiResult.ok ())
      | (cat1, false) =>
          ({ catalog := cat1, designs := st.designs }, ApiResult.err ApiError.schemaOperationFailed)

/-- Replacement of the first field of the given name, preserving its
position; none when no field has the name. -/
def replaceField : List Field → String → Field → Option (List Field)
  | [], _, _ => none
  | f :: fs, fn, nf =>
      if f.name == fn then some (nf :: fs)
      else (replaceField fs fn nf).map (fun fs1 => f :: fs1)

/-- update_field of the source (PUT tables/name/fields/fieldName): the
stored design is loaded (404 when absent), the named field is replaced in
place (404 when absent), and the table is rebuilt from the updated
design.  As for delete_field, the updated design is never written back to
the design store. -/
def update_field (st : SysState) (t : String) (fn : String) (nf : Field) :
    SysState × ApiResult Unit :=
  match alookup st.designs t with
  | none => (st, ApiResult.err ApiError.designNotFound)
  | some d =>
      match replaceField d.fields fn nf with
      | none => (st, ApiResult.err ApiError.fieldNotFound)
      | some fs1 =>
          match create_actual_table st.catalog { d with fields := fs1 } with
          | (cat1, true) => ({ catalog := cat1, designs := st.designs }, ApiResult.ok ())
          | (cat1, false) =>
              ({ catalog := cat1, designs := st.designs },
                ApiResult.err ApiError.schemaOperationFailed)

/-- The branch test of execute_sql: strip, uppercase, test for the SELECT
keyword. -/
def isQuerySql (sql : String) : Bool :=
  (sql.trim.toUpper).startsWith "SELECT"

/-- The row-formatting loop of execute_sql: for i, value in enumerate(row)
pairs the value at index i with the column name at index i. -/
def formatRowGo (columns : List String) (i : Nat) : List Value → List (String × Value)
  | [] => []
  | v :: vs => (columns.getD i "", v) :: formatRowGo columns (i + 1) vs

/-- One formatted result row: column name paired with the value. -/
def formatRow (columns : List String) (row : List Value) : List (String × Value) :=
  formatRowGo columns 0 row

/-- Response of the execute-sql endpoint. -/
inductive SqlResponse where
  | query (columns : List String) (rows : List (List (String × Value)))
  | affected (n : Int)
  | emptyErr
deriving Repr, DecidableEq

/-- execute_sql of the source (POST execute-sql).  The statement is
passed verbatim to the engine; the arguments cols, rows and rowcount are
the reply of a successful execution (column names and fetched rows for a
query, cursor rowcount otherwise).  An empty statement string is rejected
by the truthiness check before execution. -/
def execute_sql (sql : String) (cols : List String) (rows : List (List Value))
    (rowcount : Int) : SqlResponse :=
  if sql == "" then SqlResponse.emptyErr
  else if isQuerySql sql then SqlResponse.query cols (rows.map (formatRow cols))
  else SqlResponse.affected rowcount

/-! Concrete fixtures: the users example of the specification and small
states used to evaluate the operations at explicit inputs. -/

/-- The id field of the users example: INTEGER, primary. -/
def fld_id : Field := ⟨"id", "INTEGER", none, true, false, true, none⟩

/-- The email field of the users example: TEXT, unique, not nullable. -/
def fld_email : Field := ⟨"email", "TEXT", none, false, true, false, none⟩

/-- The users design of the specification examples. -/
def users_design : Design := ⟨"users", none, [fld_id, fld_email]⟩

/-- State right after a successful CreateOrReplace of the users design on
an empty system. -/
def st_users : SysState := (create_table ⟨[], []⟩ users_design true).1

/-- The age field of the AddField example, with default 0. -/
def fld_age : Field := ⟨"age", "INTEGER", none, true, false, false, some (Value.vInt 0)⟩

/-- A plain INTEGER field named a. -/
def fld_a : Field := ⟨"a", "INTEGER", none, true, false, false, none⟩

/-- A plain TEXT field named b. -/
def fld_b : Field := ⟨"b", "TEXT", none, true, false, false, none⟩

/-- An INTEGER field named a, marked primary. -/
def fld_pa : Field := ⟨"a", "INTEGER", none, true, false, true, none⟩

/-- An INTEGER field named b, marked primary. -/
def fld_pb : Field := ⟨"b", "INTEGER", none, true, false, true, none⟩

/-- A design for table t2 with a composite two-field primary key. -/
def design_two_pk : Design := ⟨"t2", none, [fld_pa, fld_pb]⟩

/-- A design for table t with the two fields a and b. -/
def design_t_ab : Design := ⟨"t", none, [fld_a, fld_b]⟩

/-- A design for table t with the single field a. -/
def design_t_a : Design := ⟨"t", none, [fld_a]⟩

/-- A live column named a. -/
def col_a : Column := ⟨"a", "INTEGER", false, none, 0⟩

/-- A live column named extra, standing for a live table whose shape
differs from the stored design. -/
def col_extra : Column := ⟨"extra", "TEXT", false, none, 0⟩

/-- State whose live table t matches its stored two-field design. -/
def st_c1 : SysState :=
  ⟨[("t", schemaOfFields [fld_a, fld_b])], [("t", design_t_ab)]⟩

/-- State with a live table t and a stored design for t, used to observe
the drop that create_table performs before a failing CREATE. -/
def st_c3 : SysState := ⟨[("t", [col_a])], [("t", design_t_a)]⟩

/-- State whose live table t has a shape different from its stored
one-field design, so that a rebuild is observable in the catalog. -/
def st_c4 : SysState := ⟨[("t", [col_extra])], [("t", design_t_a)]⟩

/-- State with a live table t and no stored design record at all. -/
def st_c10 : SysState := ⟨[("t", [col_a])], []⟩

/-! Association-list lemmas. -/

theorem alookup_append_right {α : Type} (l1 l2 : List (String × α)) (n : String)
    (h : ∀ p ∈ l1, ¬ p.1 = n) : alookup (l1 ++ l2) n = alookup l2 n := by
  induction l1 with
  | nil => rfl
  | cons p l ih =>
      have hp : (p.1 == n) = false := by
        simpa using h p (by simp)
      simp only [List.cons_append, alookup, List.find?, hp]
      exact ih (fun q hq => h q (by simp [hq]))

theorem mem_aremove_ne {α : Type} (l : List (String × α)) (n : String) :
    ∀ p ∈ aremove l n, ¬ p.1 = n := by
  intro p hp
  have := List.of_mem_filter hp
  simpa using this

theorem alookup_aset_self {α : Type} (l : List (String × α)) (n : String) (v : α) :
    alookup (aset l n v) n = some v := by
  unfold aset
  rw [alookup_append_right _ _ _ (mem_aremove_ne l n)]
  simp [alookup, List.find?]

theorem alookup_aupdate_of_lookup {α : Type} (l : List (String × α)) (n : String) (v w : α)
    (h : alookup l n = some w) : alookup (aupdate l n v) n = some v := by
  induction l with
  | nil => simp [alookup] at h
  | cons p l ih =>
      by_cases hp : p.1 = n
      · simp [alookup, aupdate, List.find?, hp]
      · have hb : (p.1 == n) = false := by simpa using hp
        have h1 : alookup l n = some w := by
          simpa [alookup, List.find?, hb] using h
        simpa [alookup, aupdate, List.find?, hb] using ih h1

/-! Reduction lemmas for create_table and get_table_structure. -/

theorem create_table_eq_ok (st : SysState) (d : Design) (b : Bool)
    (hn : (d.name == "") = false) (hv : createOk d.fields = true) :
    create_table st d b
      = ({ catalog := aset st.catalog d.name (schemaOfFields d.fields)
           designs := save_table_design st.designs d b }, ApiResult.ok ()) := by
  simp [create_table, create_actual_table, hn, hv, aset]

theorem create_table_eq_err (st : SysState) (d : Design) (b : Bool)
    (hn : (d.name == "") = false) (hv : createOk d.fields = false) :
    create_table st d b
      = ({ catalog := aremove st.catalog d.name, designs := st.designs },
          ApiResult.err ApiError.schemaOperationFailed) := by
  simp [create_table, create_actual_table, hn, hv]

theorem get_table_structure_of_lookup (cat : Catalog) (n : String) (sch : TableSchema)
    (h : alookup cat n = some sch) :
    get_table_structure cat n
      = { name := n
          columns := sch.map colInfo
          primary_keys := ((sch.map colInfo).filter (fun ci => ci.primary_key)).map
            (fun ci => ci.name)
          unique_constraints := [] } := by
  simp [get_table_structure, h]

/-- The column names of a created schema are the field names, in order. -/
theorem structure_names (fs : List Field) :
    ((schemaOfFields fs).map colInfo).map (fun ci => ci.name)
      = fs.map (fun f => f.name) := by
  unfold schemaOfFields
  rw [List.map_map, List.map_map]
  rfl

theorem pk_filter_aux (pks : List String) :
    ∀ fs : List Field, (∀ f ∈ fs, f.primary = true → idxOfStr f.name pks = 0) →
      (((fs.map (fieldColumn pks)).map colInfo).filter (fun ci => ci.primary_key)).map
          (fun ci => ci.name)
        = (fs.filter (fun f => f.primary)).map (fun f => f.name) := by
  intro fs
  induction fs with
  | nil => intro _; rfl
  | cons f fs ih =>
      intro h
      have htail := ih (fun g hg hgp => h g (by simp [hg]) hgp)
      by_cases hp : f.primary = true
      · have hidx : idxOfStr f.name pks = 0 := h f (by simp) hp
        simp [colInfo, fieldColumn, List.filter_cons, hp, hidx]
        simpa [List.map_map] using htail
      · have hp0 : f.primary = false := by simpa using hp
        simp [colInfo, fieldColumn, List.filter_cons, hp0]
        simpa [List.map_map] using htail

/-- When at most one field is primary, every primary field name sits at
index 0 of the primary-key clause. -/
theorem prim_idx_of_le_one (fs : List Field)
    (hp : (fs.filter (fun f => f.primary)).length ≤ 1) :
    ∀ f ∈ fs, f.primary = true → idxOfStr f.name (primNames fs) = 0 := by
  intro f hf hfp
  have hmem : f ∈ fs.filter (fun f => f.primary) :=
    List.mem_filter.mpr ⟨hf, by simp [hfp]⟩
  have hpos : 0 < (fs.filter (fun f => f.primary)).length :=
    List.length_pos_of_mem hmem
  have hlen1 : (fs.filter (fun f => f.primary)).length = 1 := by omega
  obtain ⟨g, hg⟩ := List.length_eq_one.mp hlen1
  have hfg : f = g := by
    rw [hg] at hmem
    simpa using hmem
  have hnames : primNames fs = [f.name] := by
    simp [primNames, hg, hfg]
  simp [hnames, idxOfStr]

/-- The primary-key name list of a created schema, as get_table_structure
derives it from the pk index comparison with 1, equals the primary field
name list whenever at most one field is primary. -/
theorem structure_pks (fs : List Field)
    (hp : (fs.filter (fun f => f.primary)).length ≤ 1) :
    (((schemaOfFields fs).map colInfo).filter (fun ci => ci.primary_key)).map
        (fun ci => ci.name)
      = primNames fs := by
  unfold schemaOfFields
  exact pk_filter_aux (primNames fs) fs (prim_idx_of_le_one fs hp)

/-! Lemmas about the row-formatting loop of execute_sql. -/

theorem getD_append_cons_len (pre : List String) (c : String) (cs : List String) (x : String) :
    (pre ++ c :: cs).getD pre.length x = c := by
  induction pre with
  | nil => rfl
  | cons p ps ih => simpa using ih

theorem formatRowGo_eq_zip :
    ∀ (r : List Value) (pre cols : List String), r.length = cols.length →
      formatRowGo (pre ++ cols) pre.length r = cols.zip r := by
  intro r
  induction r with
  | nil =>
      intro pre cols h
      cases cols with
      | nil => rfl
      | cons c cs => simp at h
  | cons v vs ih =>
      intro pre cols h
      cases cols with
      | nil => simp at h
      | cons c cs =>
          have h2 : vs.length = cs.length := by simpa using h
          have h3 := ih (pre ++ [c]) cs h2
          simp only [List.append_assoc, List.singleton_append, List.length_append,
            List.length_singleton] at h3
          simp only [formatRowGo, getD_append_cons_len, List.zip_cons_cons, h3]

theorem formatRow_eq_zip (cols : List String) (r : List Value) (h : r.length = cols.length) :
    formatRow cols r = cols.zip r :=
  formatRowGo_eq_zip r [] cols h

/-! The claims. -/

/-- Claim C1, corrected.  The cross-entity invariant is established by a
successful CreateOrReplace whose design write succeeds, for designs with
at most one primary-marked field: the stored record is the design
itself, the live column names are exactly the record field names in
order, and the live primary-key list is exactly the list of
primary-marked record fields.  (List equality implies the set equality
of the claim.)  The invariant is not preserved by RemoveField and
UpdateField, which rebuild the live table without writing the new design
back; the accompanying counterexample exhibits this. -/
theorem spec_c1_amended (st : SysState) (d : Design)
    (hn : ¬ d.name = "") (hv : createOk d.fields = true)
    (hp : (d.fields.filter (fun f => f.primary)).length ≤ 1) :
    (create_table st d true).2 = ApiResult.ok () ∧
    alookup (create_table st d true).1.designs d.name = some d ∧
    (get_table_structure (create_table st d true).1.catalog d.name).columns.map
        (fun c => c.name)
      = d.fields.map (fun f => f.name) ∧
    (get_table_structure (create_table st d true).1.catalog d.name).primary_keys
      = primNames d.fields := by
  have hb : (d.name == "") = false := by simpa using hn
  rw [create_table_eq_ok st d true hb hv]
  have hcat : alookup (aset st.catalog d.name (schemaOfFields d.fields)) d.name
      = some (schemaOfFields d.fields) := alookup_aset_self _ _ _
  have hstruct := get_table_structure_of_lookup _ d.name _ hcat
  refine ⟨rfl, ?_, ?_, ?_⟩
  · simpa [save_table_design] using alookup_aset_self st.designs d.name d
  · rw [hstruct]
    exact structure_names d.fields
  · rw [hstruct]
    exact structure_pks d.fields hp

/-- Witness for the amended claim C1 at the users design on the empty
system. -/
theorem spec_c1_amended_witness :
    (create_table ⟨[], []⟩ users_design true).2 = ApiResult.ok () ∧
    alookup (create_table ⟨[], []⟩ users_design true).1.designs users_design.name
      = some users_design ∧
    (get_table_structure (create_table ⟨[], []⟩ users_design true).1.catalog
        users_design.name).columns.map (fun c => c.name)
      = users_design.fields.map (fun f => f.name) ∧
    (get_table_structure (create_table ⟨[], []⟩ users_design true).1.catalog
        users_design.name).primary_keys
      = primNames users_design.fields :=
  spec_c1_amended ⟨[], []⟩ users_design (by decide) (by decide) (by decide)

/-- Counterexample to claim C1 as stated: after a successful RemoveField
of b from table t, the stored design record still lists field b while the
live table no longer has a column b, so the table structure is not
structurally consistent with the stored record. -/
theorem spec_c1_cex :
    (delete_field st_c1 "t" "b").2 = ApiResult.ok () ∧
    alookup (delete_field st_c1 "t" "b").1.designs "t" = some design_t_ab ∧
    "b" ∈ design_t_ab.fields.map (fun f => f.name) ∧
    ¬ "b" ∈ (get_table_structure (delete_field st_c1 "t" "b").1.catalog "t").columns.map
        (fun c => c.name) := by
  decide

/-- Claim C2, corrected.  For a valid design with at most one
primary-marked field, Describe after CreateOrReplace returns exactly the
design field names as column names and exactly the primary-marked field
names as primary keys (list equality, which implies the set equality of
the claim).  For a composite key the source compares the PRAGMA pk index
with 1, so only the first key column is reported; the counterexample
exhibits this. -/
theorem spec_c2_amended (st : SysState) (d : Design)
    (hn : ¬ d.name = "") (hv : createOk d.fields = true)
    (hp : (d.fields.filter (fun f => f.primary)).length ≤ 1) :
    (create_table st d true).2 = ApiResult.ok () ∧
    (get_table_structure (create_table st d true).1.catalog d.name).columns.map
        (fun c => c.name)
      = d.fields.map (fun f => f.name) ∧
    (get_table_structure (create_table st d true).1.catalog d.name).primary_keys
      = primNames d.fields := by
  have hb : (d.name == "") = false := by simpa using hn
  rw [create_table_eq_ok st d true hb hv]
  have hcat : alookup (aset st.catalog d.name (schemaOfFields d.fields)) d.name
      = some (schemaOfFields d.fields) := alookup_aset_self _ _ _
  have hstruct := get_table_structure_of_lookup _ d.name _ hcat
  refine ⟨rfl, ?_, ?_⟩
  · rw [hstruct]
    exact structure_names d.fields
  · rw [hstruct]
    exact structure_pks d.fields hp

/-- Witness for the amended claim C2 at the users design on the empty
system. -/
theorem spec_c2_amended_witness :
    (create_table ⟨[], []⟩ users_design true).2 = ApiResult.ok () ∧
    (get_table_structure (create_table ⟨[], []⟩ users_design true).1.catalog
        users_design.name).columns.map (fun c => c.name)
      = users_design.fields.map (fun f => f.name) ∧
    (get_table_structure (create_table ⟨[], []⟩ users_design true).1.catalog
        users_design.name).primary_keys
      = primNames users_design.fields :=
  spec_c2_amended ⟨[], []⟩ users_design (by decide) (by decide) (by decide)

/-- Counterexample to claim C2 as stated: the valid design for t2 marks
both fields a and b primary; after a successful CreateOrReplace the
described primary-key set contains a but not b, so it differs from the
set of primary-marked fields. -/
theorem spec_c2_cex :
    ((create_table ⟨[], []⟩ design_two_pk true).2 = ApiResult.ok ()) ∧
    "b" ∈ primNames design_two_pk.fields ∧
    ¬ "b" ∈ (get_table_structure (create_table ⟨[], []⟩ design_two_pk true).1.catalog
        "t2").primary_keys := by
  decide

/-- Claim C3, corrected.  create_table performs no field-list validation
before I/O: with an empty field list or a repeated field name the CREATE
statement is rejected by the engine and the operation fails with
SchemaOperationFailed, not InvalidDesign, and any existing live table of
that name has already been dropped; only the design store is left
untouched. -/
theorem spec_c3_amended (st : SysState) (d : Design) (b : Bool)
    (hn : ¬ d.name = "")
    (hbad : d.fields = [] ∨ nodupNames (d.fields.map (fun f => f.name)) = false) :
    create_table st d b
      = ({ catalog := aremove st.catalog d.name, designs := st.designs },
          ApiResult.err ApiError.schemaOperationFailed) := by
  have hb : (d.name == "") = false := by simpa using hn
  have hv : createOk d.fields = false := by
    cases hbad with
    | inl h => simp [createOk, h]
    | inr h => simp [createOk, h]
  exact create_table_eq_err st d b hb hv

/-- Witness for the amended claim C3: creating a design named t with an
empty field list over a state holding a live table t. -/
theorem spec_c3_amended_witness :
    create_table st_c3 ⟨"t", none, []⟩ true
      = ({ catalog := aremove st_c3.catalog "t", designs := st_c3.designs },
          ApiResult.err ApiError.schemaOperationFailed) :=
  spec_c3_amended st_c3 ⟨"t", none, []⟩ true (by decide) (Or.inl rfl)

/-- Counterexample to claim C3 as stated: a design with an empty field
list does not fail with InvalidDesign before I/O; the operation fails
with SchemaOperationFailed and the pre-existing live table t has been
dropped by the time the CREATE statement fails. -/
theorem spec_c3_cex :
    (create_table st_c3 ⟨"t", none, []⟩ true).2
        = ApiResult.err ApiError.schemaOperationFailed ∧
    ¬ (create_table st_c3 ⟨"t", none, []⟩ true).2
        = ApiResult.err ApiError.invalidDesign ∧
    alookup (create_table st_c3 ⟨"t", none, []⟩ true).1.catalog "t" = none := by
  decide

/-- Claim C4, corrected.  RemoveField of a field name absent from the
stored design does not fail with FieldNotFound: the filter leaves the
field list unchanged and the live table is rebuilt from it, reporting
success.  The design store is untouched. -/
theorem spec_c4_amended (st : SysState) (t fn : String) (d : Design)
    (hd : alookup st.designs t = some d)
    (habs : ∀ f ∈ d.fields, ¬ f.name = fn)
    (hv : createOk d.fields = true) :
    delete_field st t fn
      = ({ catalog := aset st.catalog d.name (schemaOfFields d.fields),
           designs := st.designs }, ApiResult.ok ()) := by
  have hfilter : d.fields.filter (fun f => f.name != fn) = d.fields :=
    List.filter_eq_self.mpr (fun f hf => by simpa using habs f hf)
  simp [delete_field, hd, hfilter, create_actual_table, hv, aset]

/-- Witness for the amended claim C4: removing the absent field zzz from
table t with stored one-field design. -/
theorem spec_c4_amended_witness :
    delete_field st_c4 "t" "zzz"
      = ({ catalog := aset st_c4.catalog design_t_a.name (schemaOfFields design_t_a.fields),
           designs := st_c4.designs }, ApiResult.ok ()) :=
  spec_c4_amended st_c4 "t" "zzz" design_t_a (by decide) (by decide) (by decide)

/-- Counterexample to claim C4 as stated: the stored design for t has the
single field a; RemoveField of the absent name zzz reports success rather
than FieldNotFound, and it does rebuild the live table, whose catalog
entry changes from the drifted shape to the rebuilt one-column shape. -/
theorem spec_c4_cex :
    (delete_field st_c4 "t" "zzz").2 = ApiResult.ok () ∧
    alookup (delete_field st_c4 "t" "zzz").1.catalog "t"
      = some (schemaOfFields [fld_a]) ∧
    ¬ alookup st_c4.catalog "t" = some (schemaOfFields [fld_a]) := by
  decide

/-- Claim C5, a code bug.  Describe of an absent table does not fail:
PRAGMA table_info on a missing table yields an empty row set without an
error, get_table_structure therefore returns a truthy structure with an
empty column list, and the not-found branch of the detail endpoint is
unreachable; on the empty system the endpoint answers ok with a
zero-column table structure and no design. -/
theorem spec_c5_bug :
    get_table_detail ⟨[], []⟩ "users"
      = ApiResult.ok (⟨"users", [], [], []⟩, none) := by
  decide

/-- Claim C6, corrected.  When the design-store write fails after a
successful DDL statement, the failure is swallowed: save_table_design
catches the exception and only logs it, create_table still reports
success, and no error of any kind, in particular no
DesignPersistenceFailed, reaches the caller; the store is left at its
previous content while the live schema already changed. -/
theorem spec_c6_amended (st : SysState) (d : Design)
    (hn : ¬ d.name = "") (hv : createOk d.fields = true) :
    (create_table st d false).2 = ApiResult.ok () ∧
    (create_table st d false).1.designs = st.designs := by
  have hb : (d.name == "") = false := by simpa using hn
  rw [create_table_eq_ok st d false hb hv]
  exact ⟨rfl, rfl⟩

/-- Witness for the amended claim C6 at the users design. -/
theorem spec_c6_amended_witness :
    (create_table ⟨[], []⟩ users_design false).2 = ApiResult.ok () ∧
    (create_table ⟨[], []⟩ users_design false).1.designs
      = (⟨[], []⟩ : SysState).designs :=
  spec_c6_amended ⟨[], []⟩ users_design (by decide) (by decide)

/-- Counterexample to claim C6 as stated: with a failing design write the
users table is created in the live catalog, the design store stays empty,
and the operation still answers ok; no DesignPersistenceFailed error is
surfaced. -/
theorem spec_c6_cex :
    (create_table ⟨[], []⟩ users_design false).2 = ApiResult.ok () ∧
    ¬ (create_table ⟨[], []⟩ users_design false).2
        = ApiResult.err ApiError.designPersistenceFailed ∧
    (create_table ⟨[], []⟩ users_design false).1.designs = [] ∧
    ¬ alookup (create_table ⟨[], []⟩ users_design false).1.catalog "users" = none := by
  decide

/-- Claim C7, a code bug.  AddField of the age field with default 0 on
the users table succeeds and the stored design grows to 3 fields, but the
source guards the DEFAULT clause with a Python truthiness test, so the
falsy default 0 is dropped: the rendered statement carries no DEFAULT
clause and the described age column has no default value, against the
claimed default 0. -/
theorem spec_c7_bug :
    buildAddColumnSql "users" fld_age = "ALTER TABLE users ADD COLUMN age INTEGER" ∧
    (add_field st_users "users" fld_age).2 = ApiResult.ok () ∧
    ((get_table_structure (add_field st_users "users" fld_age).1.catalog "users").columns.map
        (fun c => (c.name, c.default_value)))
      = [("id", none), ("email", none), ("age", none)] ∧
    (alookup (add_field st_users "users" fld_age).1.designs "users").map
        (fun d => d.fields.length)
      = some 3 := by
  decide

/-- Claim C8, confirmed.  For a non-empty statement answered by the
engine with column names cols, value rows rows, and cursor count n (each
fetched row having one value per reported column), execute_sql returns
the ordered column names together with the rows formatted as
column-to-value pairings when the stripped, uppercased statement starts
with the SELECT keyword, and the affected-row count otherwise. -/
theorem spec_c8_execute_sql (sql : String) (cols : List String)
    (rows : List (List Value)) (n : Int)
    (hs : ¬ sql = "") (hlen : ∀ r ∈ rows, r.length = cols.length) :
    execute_sql sql cols rows n
      = if isQuerySql sql then
          SqlResponse.query cols (rows.map (fun r => cols.zip r))
        else SqlResponse.affected n := by
  have hb : (sql == "") = false := by simpa using hs
  have hrows : rows.map (formatRow cols) = rows.map (fun r => cols.zip r) :=
    List.map_congr_left (fun r hr => formatRow_eq_zip cols r (hlen r hr))
  simp only [execute_sql, hb, Bool.false_eq_true, if_false, hrows]

/-- Witness for claim C8: the SELECT example of the specification with a
two-column reply. -/
theorem spec_c8_witness :
    execute_sql "SELECT * FROM users" ["id", "email"]
        [[Value.vInt 1, Value.vStr "a"]] 0
      = if isQuerySql "SELECT * FROM users" then
          SqlResponse.query ["id", "email"]
            ([[Value.vInt 1, Value.vStr "a"]].map
              (fun r => (["id", "email"]).zip r))
        else SqlResponse.affected 0 :=
  spec_c8_execute_sql "SELECT * FROM users" ["id", "email"]
    [[Value.vInt 1, Value.vStr "a"]] 0 (by decide) (by decide)

/-- Claim C9, confirmed.  CreateOrReplace is idempotent in schema shape:
for a valid design both applications succeed and the described table
structure after the second equals the one after the first. -/
theorem spec_c9_idempotent (st : SysState) (d : Design)
    (hn : ¬ d.name = "") (hv : createOk d.fields = true) :
    (create_table st d true).2 = ApiResult.ok () ∧
    (create_table (create_table st d true).1 d true).2 = ApiResult.ok () ∧
    get_table_structure (create_table (create_table st d true).1 d true).1.catalog d.name
      = get_table_structure (create_table st d true).1.catalog d.name := by
  have hb : (d.name == "") = false := by simpa using hn
  rw [create_table_eq_ok st d true hb hv]
  rw [create_table_eq_ok _ d true hb hv]
  refine ⟨rfl, rfl, ?_⟩
  have h1 : alookup (aset st.catalog d.name (schemaOfFields d.fields)) d.name
      = some (schemaOfFields d.fields) := alookup_aset_self _ _ _
  have h2 : alookup (aset (aset st.catalog d.name (schemaOfFields d.fields)) d.name
        (schemaOfFields d.fields)) d.name
      = some (schemaOfFields d.fields) := alookup_aset_self _ _ _
  simp [get_table_structure, h1, h2]

/-- Witness for claim C9 at the users design on the empty system. -/
theorem spec_c9_witness :
    (create_table ⟨[], []⟩ users_design true).2 = ApiResult.ok () ∧
    (create_table (create_table ⟨[], []⟩ users_design true).1 users_design true).2
      = ApiResult.ok () ∧
    get_table_structure
        (create_table (create_table ⟨[], []⟩ users_design true).1 users_design
          true).1.catalog users_design.name
      = get_table_structure (create_table ⟨[], []⟩ users_design true).1.catalog
          users_design.name :=
  spec_c9_idempotent ⟨[], []⟩ users_design (by decide) (by decide)

/-- Claim C10, confirmed.  On a table present in the live catalog but
without a stored design record, a valid AddField succeeds, the new column
is appended to the live table, and the design store is left exactly as it
was: no record is created. -/
theorem spec_c10_add_field_no_design (st : SysState) (t : String) (f : Field)
    (sch : TableSchema)
    (hd : alookup st.designs t = none)
    (ht : alookup st.catalog t = some sch)
    (hf : ¬ f.name = "")
    (ha : alterAddOk sch f = true) :
    (add_field st t f).2 = ApiResult.ok () ∧
    (add_field st t f).1.designs = st.designs ∧
    alookup (add_field st t f).1.catalog t = some (sch ++ [newColumn f]) := by
  have hb : (f.name == "") = false := by simpa using hf
  simp only [add_field, hb, Bool.false_eq_true, if_false, ht, ha, if_true]
  refine ⟨trivial, ?_, ?_⟩
  · simp [update_design_after_field_change, hd]
  · exact alookup_aupdate_of_lookup st.catalog t _ sch ht

/-- Witness for claim C10: adding field b to the design-less live table
t. -/
theorem spec_c10_witness :
    (add_field st_c10 "t" fld_b).2 = ApiResult.ok () ∧
    (add_field st_c10 "t" fld_b).1.designs = st_c10.designs ∧
    alookup (add_field st_c10 "t" fld_b).1.catalog "t"
      = some ([col_a] ++ [newColumn fld_b]) :=
  spec_c10_add_field_no_design st_c10 "t" fld_b [col_a] (by decide) (by decide)
    (by decide) (by decide)

end SqlGen
